import Mathlib

/-
Verification of the particle-field background animation (src/bg.js).

The file embeds the two animation variants of bg.js shallowly:
numbers are rationals, the handful of places where JavaScript's
NaN/Infinity semantics matter (the alpha computation divides by a
possibly-zero lifetime) use an explicit extended-number type JSNum,
and the per-frame mutation of the circle array is modelled as a pure
function on lists.  Random draws (Math.random results in [0,1)) are
passed in explicitly.
-/

namespace Bg

/-- JavaScript numbers as they arise in the alpha computation: a finite
rational, NaN, or a signed infinity. -/
inductive JSNum where
  | num (q : ℚ)
  | nan
  | inf
  | ninf
deriving DecidableEq, Repr

/-- JavaScript division of two finite numbers: division by zero yields an
infinity of the numerator's sign, or NaN for 0/0. -/
def qdiv (a b : ℚ) : JSNum :=
  if b = 0 then
    if a = 0 then JSNum.nan else if 0 < a then JSNum.inf else JSNum.ninf
  else JSNum.num (a / b)

/-- JavaScript division of an extended number by a finite constant. -/
def jdivq (x : JSNum) (c : ℚ) : JSNum :=
  match x with
  | JSNum.num a => qdiv a c
  | JSNum.nan => JSNum.nan
  | JSNum.inf => if c < 0 then JSNum.ninf else JSNum.inf
  | JSNum.ninf => if c < 0 then JSNum.inf else JSNum.ninf

/-- JavaScript subtraction of an extended number from a finite constant. -/
def jsubq (a : ℚ) (x : JSNum) : JSNum :=
  match x with
  | JSNum.num b => JSNum.num (a - b)
  | JSNum.nan => JSNum.nan
  | JSNum.inf => JSNum.ninf
  | JSNum.ninf => JSNum.inf

/-- JavaScript comparison x < c (false when x is NaN). -/
def jltq (x : JSNum) (c : ℚ) : Bool :=
  match x with
  | JSNum.num a => decide (a < c)
  | JSNum.nan => false
  | JSNum.inf => false
  | JSNum.ninf => true

/-- JavaScript comparison x > c (false when x is NaN). -/
def jgtq (x : JSNum) (c : ℚ) : Bool :=
  match x with
  | JSNum.num a => decide (c < a)
  | JSNum.nan => false
  | JSNum.inf => true
  | JSNum.ninf => false

/-- One circle particle, bg.js lines 35 and 71: position, radius, the three
HSL colour components, lifetime in ms, fade portions and creation time. -/
structure Circle where
  x : ℚ
  y : ℚ
  radius : ℚ
  hue : ℤ
  sat : ℤ
  light : ℤ
  lifeMs : ℚ
  fadeInPortion : ℚ
  fadeOutPortion : ℚ
  createdAt : ℚ
deriving DecidableEq, Repr

/-- Utility random(min, max) of bg.js line 39, with the Math.random draw
u ∈ [0,1) made explicit: u * (max - min) + min. -/
def random (u mn mx : ℚ) : ℚ :=
  u * (mx - mn) + mn

/-- The seven Math.random draws consumed by one spawnCircle call, in the
order the source consumes them. -/
structure SpawnDraws where
  dRadius : ℚ
  dX : ℚ
  dY : ℚ
  dHue : ℚ
  dSat : ℚ
  dLight : ℚ
  dLife : ℚ
deriving DecidableEq, Repr

/-- Radius upper bound of bg.js lines 49 and 207: max(w, h) * 0.08. -/
def maxRadiusOf (w h : ℚ) : ℚ :=
  max w h * (8 / 100)

/-- Radius lower bound of bg.js lines 50 and 208: max(20, min(w, h) * 0.01). -/
def minRadiusOf (w h : ℚ) : ℚ :=
  max 20 (min w h * (1 / 100))

/-- spawnCircle of the first variant (bg.js lines 44-72): radius in
[minRadius, maxRadius) with maxRadius = max(w,h)*0.08 and
minRadius = max(20, min(w,h)*0.01), position in [-radius, w+radius) ×
[-radius, h+radius), pastel colour, lifetime in [9000, 14000) ms, fade
portions 0.25, createdAt = performance.now(). -/
def spawnCircle (w h : ℚ) (d : SpawnDraws) (nowMs : ℚ) : Circle :=
  let maxRadius := maxRadiusOf w h
  let minRadius := minRadiusOf w h
  let radius := random d.dRadius minRadius maxRadius
  let x := random d.dX (-radius) (w + radius)
  let y := random d.dY (-radius) (h + radius)
  let hue := ⌊random d.dHue 0 360⌋
  let sat := ⌊random d.dSat 30 45⌋
  let light := ⌊random d.dLight 80 92⌋
  let lifeMs := random d.dLife 9000 14000
  { x := x, y := y, radius := radius, hue := hue, sat := sat, light := light,
    lifeMs := lifeMs, fadeInPortion := 1 / 4, fadeOutPortion := 1 / 4,
    createdAt := nowMs }

/-- spawnCircle of the second variant (bg.js lines 202-230): same radius and
position formulas, vivid colour ranges, lifetime in [6000, 12000) ms. -/
def spawnCircle2 (w h : ℚ) (d : SpawnDraws) (nowMs : ℚ) : Circle :=
  let maxRadius := maxRadiusOf w h
  let minRadius := minRadiusOf w h
  let radius := random d.dRadius minRadius maxRadius
  let x := random d.dX (-radius) (w + radius)
  let y := random d.dY (-radius) (h + radius)
  let hue := ⌊random d.dHue 0 360⌋
  let sat := ⌊random d.dSat 60 85⌋
  let light := ⌊random d.dLight 55 75⌋
  let lifeMs := random d.dLife 6000 12000
  { x := x, y := y, radius := radius, hue := hue, sat := sat, light := light,
    lifeMs := lifeMs, fadeInPortion := 1 / 4, fadeOutPortion := 1 / 4,
    createdAt := nowMs }

/-- Frame delta of the first variant (bg.js line 90):
min(max(now - lastNow, 0), 50). -/
def clampDelta (now lastNow : ℚ) : ℚ :=
  min (max (now - lastNow) 0) 50

/-- In-place advancement of createdAt by the clamped delta
(bg.js line 106: c.createdAt += delta). -/
def advanceCircle (delta : ℚ) (c : Circle) : Circle :=
  { c with createdAt := c.createdAt + delta }

/-- Age of a circle at time now (bg.js lines 107 and 256: now - c.createdAt). -/
def circleAge (now : ℚ) (c : Circle) : ℚ :=
  now - c.createdAt

/-- Expiry test of bg.js lines 108 and 257: age >= lifeMs. -/
def expired (now : ℚ) (c : Circle) : Bool :=
  decide (c.lifeMs ≤ circleAge now c)

/-- Alpha computation shared by both variants (bg.js lines 111-124 and
260-273): t = age / lifeMs, then the fade-in / hold / fade-out piecewise
formula, with JavaScript number semantics for the divisions. -/
def alphaRaw (age lifeMs fadeIn fadeOut : ℚ) : JSNum :=
  let t := qdiv age lifeMs
  if jltq t fadeIn then jdivq t fadeIn
  else if jgtq t (1 - fadeOut) then jdivq (jsubq 1 t) fadeOut
  else JSNum.num 1

/-- Numeric-safety step of the first variant (bg.js lines 127-128): a
non-finite alpha is replaced by 0, then the value is clamped to [0,1]. -/
def sanitizeAlpha (x : JSNum) : ℚ :=
  let a : ℚ := match x with
    | JSNum.num q => q
    | _ => 0
  max 0 (min a 1)

/-- Alpha before the global dimming multiplier 0.22 in the first variant:
the raw piecewise alpha passed through the sanitizing clamp. -/
def alphaBeforeDim1 (now : ℚ) (c : Circle) : ℚ :=
  sanitizeAlpha (alphaRaw (circleAge now c) c.lifeMs c.fadeInPortion c.fadeOutPortion)

/-- Alpha before the global dimming multiplier 0.25 in the second variant
(bg.js lines 263-276): the raw piecewise alpha, with no sanitizing step. -/
def alphaBeforeDim2 (now : ℚ) (c : Circle) : JSNum :=
  alphaRaw (circleAge now c) c.lifeMs c.fadeInPortion c.fadeOutPortion

/-- Piecewise alpha formula as the spec states it, over plain rationals.
Modelled from the spec: alpha(t) = t/fadeInFraction for t < fadeInFraction,
(1-t)/fadeOutFraction for t > 1-fadeOutFraction, and 1 otherwise. -/
def alphaSpec (t fadeIn fadeOut : ℚ) : ℚ :=
  if t < fadeIn then t / fadeIn
  else if 1 - fadeOut < t then (1 - t) / fadeOut
  else 1

/-- Per-frame circle update of the first variant (bg.js lines 102-108):
every circle's createdAt is advanced by delta, then circles whose age
reached lifeMs are removed.  The reverse-index splice loop of the source
removes exactly the expired elements and keeps the survivors in order,
which on lists is map-then-filter. -/
def stepCircles1 (now delta : ℚ) (cs : List Circle) : List Circle :=
  (cs.map (advanceCircle delta)).filter (fun c => ! expired now c)

/-- Per-frame circle update of the second variant (bg.js lines 254-257):
no createdAt adjustment, circles whose age reached lifeMs are removed. -/
def stepCircles2 (now : ℚ) (cs : List Circle) : List Circle :=
  cs.filter (fun c => ! expired now c)

/-- Spawn-event trigger of bg.js lines 94 and 246: now - lastSpawn > 400. -/
def spawnTriggered (now lastSpawn : ℚ) : Bool :=
  decide (400 < now - lastSpawn)

/-- Number of circles spawned by one spawn event (bg.js lines 97 and 249):
Math.random() < 0.2 ? Math.floor(random(2, 4)) : 1, with the two
Math.random draws u1 and u2 explicit. -/
def spawnCount (u1 u2 : ℚ) : ℕ :=
  if u1 < 1 / 5 then (⌊random u2 2 4⌋).toNat else 1

/-- Spawn phase of a frame (bg.js lines 94-99 and 246-251): when triggered,
lastSpawn is set to now and spawnCount new circles are appended; otherwise
nothing changes.  mk i is the circle produced by the i-th spawnCircle call
of the burst. -/
def spawnPhase (now lastSpawn : ℚ) (u1 u2 : ℚ) (mk : ℕ → Circle)
    (cs : List Circle) : ℚ × List Circle :=
  if spawnTriggered now lastSpawn then
    (now, cs ++ (List.range (spawnCount u1 u2)).map mk)
  else (lastSpawn, cs)

/-- Mutable loop state of the first variant: the circle list and the
lastSpawn / lastNow timestamps (bg.js lines 36, 75, 77). -/
structure AnimState1 where
  circles : List Circle
  lastSpawn : ℚ
  lastNow : ℚ
deriving DecidableEq, Repr

/-- Mutable loop state of the second variant (bg.js lines 194, 233):
no lastNow, since it keeps no frame delta. -/
structure AnimState2 where
  circles : List Circle
  lastSpawn : ℚ
deriving DecidableEq, Repr

/-- One frame of the first variant's animate (bg.js lines 80-149), with the
rendering calls elided: compute the clamped delta and update lastNow, run
the spawn phase, then advance and expire every circle (the freshly spawned
ones included, since the spawn phase precedes the loop). -/
def frame1 (w h now u1 u2 : ℚ) (d : ℕ → SpawnDraws) (tsp : ℕ → ℚ)
    (s : AnimState1) : AnimState1 :=
  let delta := clampDelta now s.lastNow
  let sp := spawnPhase now s.lastSpawn u1 u2
    (fun i => spawnCircle w h (d i) (tsp i)) s.circles
  { circles := stepCircles1 now delta sp.2, lastSpawn := sp.1, lastNow := now }

/-- One frame of the second variant's animate (bg.js lines 236-291), with
the rendering calls elided. -/
def frame2 (w h now u1 u2 : ℚ) (d : ℕ → SpawnDraws) (tsp : ℕ → ℚ)
    (s : AnimState2) : AnimState2 :=
  let sp := spawnPhase now s.lastSpawn u1 u2
    (fun i => spawnCircle2 w h (d i) (tsp i)) s.circles
  { circles := stepCircles2 now sp.2, lastSpawn := sp.1 }

/-- Drawing-surface state owned by resizeCanvas: the canvas backing
resolution, its CSS display size, the context transform (the six
setTransform entries) and the module-level devicePixelRatioScale. -/
structure SurfaceState where
  canvasWidth : ℤ
  canvasHeight : ℤ
  styleWidth : ℚ
  styleHeight : ℚ
  transform : ℚ × ℚ × ℚ × ℚ × ℚ × ℚ
  dprScale : ℚ
deriving DecidableEq, Repr

/-- resizeCanvas of bg.js lines 17-32 (identical in both variants): scale =
min(2, devicePixelRatio || 1) with 0 the only falsy rational, backing
resolution floor(innerWidth*scale) × floor(innerHeight*scale), display size
innerWidth × innerHeight, transform setTransform(scale, 0, 0, scale, 0, 0).
Every field of the surface is overwritten; the previous state is unused. -/
def resizeCanvas (innerWidth innerHeight dpr : ℚ) (_s : SurfaceState) :
    SurfaceState :=
  let scale := min 2 (if dpr = 0 then 1 else dpr)
  { canvasWidth := ⌊innerWidth * scale⌋
    canvasHeight := ⌊innerHeight * scale⌋
    styleWidth := innerWidth
    styleHeight := innerHeight
    transform := (scale, 0, 0, scale, 0, 0)
    dprScale := scale }

/-- Whole module state of one variant: the surface plus the loop state.
resizeCanvas touches only the surface (its body, bg.js lines 17-32, never
mentions circles, lastSpawn or lastNow). -/
structure ModuleState where
  surface : SurfaceState
  circles : List Circle
  lastSpawn : ℚ
  lastNow : ℚ
deriving DecidableEq, Repr

/-- A resize event (bg.js line 153: window resize calls resizeCanvas):
only the surface part of the module state changes. -/
def resizeEvent (innerWidth innerHeight dpr : ℚ) (s : ModuleState) :
    ModuleState :=
  { s with surface := resizeCanvas innerWidth innerHeight dpr s.surface }

/-- Concrete circle as the second variant spawns it during a frame whose
rAF timestamp is 0: createdAt = performance.now() at spawn time, which is
slightly later than the frame timestamp (here 100 ms later), lifetime
6000 ms, fade portions 0.25. -/
def cNeg : Circle :=
  { x := 0, y := 0, radius := 50, hue := 0, sat := 60, light := 55,
    lifeMs := 6000, fadeInPortion := 1 / 4, fadeOutPortion := 1 / 4,
    createdAt := 100 }

/-- Concrete circle of the first variant, created at time 0 with a 9000 ms
lifetime, used to trace the age arithmetic across a 200 ms frame gap. -/
def cGap : Circle :=
  { x := 0, y := 0, radius := 50, hue := 0, sat := 30, light := 80,
    lifeMs := 9000, fadeInPortion := 1 / 4, fadeOutPortion := 1 / 4,
    createdAt := 0 }

/-
Helper lemmas, shared by several of the claim theorems below.
-/

/-- A random draw with sample u ∈ [0,1) lands in [mn, mx] when mn ≤ mx. -/
lemma random_mem_Icc (u mn mx : ℚ) (hle : mn ≤ mx) (h0 : 0 ≤ u) (h1 : u < 1) :
    mn ≤ random u mn mx ∧ random u mn mx ≤ mx := by
  unfold random
  constructor
  · nlinarith [mul_nonneg h0 (sub_nonneg.mpr hle)]
  · nlinarith [mul_nonneg (sub_nonneg.mpr h1.le) (sub_nonneg.mpr hle)]

/-- A random draw always lands between the smaller and the larger of its two
bounds, whichever order they are given in. -/
lemma random_mem_minmax (u mn mx : ℚ) (h0 : 0 ≤ u) (h1 : u < 1) :
    min mn mx ≤ random u mn mx ∧ random u mn mx ≤ max mn mx := by
  rcases le_total mn mx with h | h
  · rw [min_eq_left h, max_eq_right h]
    exact random_mem_Icc u mn mx h h0 h1
  · rw [min_eq_right h, max_eq_left h]
    unfold random
    constructor
    · nlinarith [mul_nonneg (sub_nonneg.mpr h1.le) (sub_nonneg.mpr h)]
    · nlinarith [mul_nonneg h0 (sub_nonneg.mpr h)]

/-- The radius drawn by spawnCircle is strictly positive for a nonnegative
viewport: it is a convex-type combination u*maxRadius + (1-u)*minRadius with
minRadius ≥ 20 and maxRadius ≥ 0. -/
lemma radiusDraw_pos (w h u : ℚ) (hw : 0 ≤ w) (_hh : 0 ≤ h)
    (h0 : 0 ≤ u) (h1 : u < 1) :
    0 < random u (minRadiusOf w h) (maxRadiusOf w h) := by
  have hmax0 : 0 ≤ maxRadiusOf w h := by
    unfold maxRadiusOf
    have : (0:ℚ) ≤ max w h := le_max_of_le_left hw
    nlinarith
  have hmin20 : (20:ℚ) ≤ minRadiusOf w h := le_max_left _ _
  unfold random
  nlinarith [mul_nonneg h0 hmax0,
    mul_pos (by linarith : (0:ℚ) < 1 - u) (by linarith : (0:ℚ) < minRadiusOf w h)]

/-- The alpha computation of the source agrees with the spec's piecewise
formula over plain rationals whenever the lifetime and the fade fractions
are nonzero, so that no division ever leaves the finite numbers. -/
lemma alphaRaw_eq_alphaSpec (age lifeMs fadeIn fadeOut : ℚ)
    (hl : lifeMs ≠ 0) (hfi : fadeIn ≠ 0) (hfo : fadeOut ≠ 0) :
    alphaRaw age lifeMs fadeIn fadeOut
      = JSNum.num (alphaSpec (age / lifeMs) fadeIn fadeOut) := by
  unfold alphaRaw alphaSpec qdiv
  rw [if_neg hl]
  by_cases h1 : age / lifeMs < fadeIn
  · simp [jltq, h1, jdivq, qdiv, hfi]
  · by_cases h2 : 1 - fadeOut < age / lifeMs
    · simp [jltq, jgtq, h1, h2, jsubq, jdivq, qdiv, hfo]
    · simp [jltq, jgtq, h1, h2]

/-- The spec's piecewise alpha at fade fractions 0.25 stays in [0,1] for
progress t ∈ [0,1). -/
lemma alphaSpec_mem_unit (t : ℚ) (h0 : 0 ≤ t) (h1 : t < 1) :
    0 ≤ alphaSpec t (1/4) (1/4) ∧ alphaSpec t (1/4) (1/4) ≤ 1 := by
  unfold alphaSpec
  split_ifs with ha hb
  · exact ⟨div_nonneg h0 (by norm_num),
      (div_le_one (by norm_num)).mpr (le_of_lt ha)⟩
  · exact ⟨div_nonneg (by linarith) (by norm_num),
      (div_le_one (by norm_num)).mpr (by linarith)⟩
  · norm_num

/-- The sanitizing clamp is the identity on values already in [0,1]. -/
lemma sanitizeAlpha_num (a : ℚ) (h0 : 0 ≤ a) (h1 : a ≤ 1) :
    sanitizeAlpha (JSNum.num a) = a := by
  show max 0 (min a 1) = a
  rw [min_eq_left h1, max_eq_right h0]

/-- C1: after a frame of either variant's render loop, a particle is removed
exactly when its age reached its lifetime: every circle surviving
stepCircles1 / stepCircles2 (and hence a full frame1 / frame2) has age
strictly below lifeMs, and every circle of the traversed collection whose
age is below lifeMs survives the frame. -/
theorem frame_expires_exactly (now delta : ℚ) (cs : List Circle) :
    (∀ c ∈ stepCircles1 now delta cs, circleAge now c < c.lifeMs) ∧
    (∀ c ∈ cs, circleAge now (advanceCircle delta c) < c.lifeMs →
       advanceCircle delta c ∈ stepCircles1 now delta cs) ∧
    (∀ c ∈ stepCircles2 now cs, circleAge now c < c.lifeMs) ∧
    (∀ c ∈ cs, circleAge now c < c.lifeMs → c ∈ stepCircles2 now cs) ∧
    (∀ (w h u1 u2 : ℚ) (d : ℕ → SpawnDraws) (tsp : ℕ → ℚ) (s : AnimState1),
       ∀ c ∈ (frame1 w h now u1 u2 d tsp s).circles, circleAge now c < c.lifeMs) ∧
    (∀ (w h u1 u2 : ℚ) (d : ℕ → SpawnDraws) (tsp : ℕ → ℚ) (s : AnimState2),
       ∀ c ∈ (frame2 w h now u1 u2 d tsp s).circles, circleAge now c < c.lifeMs) := by
  have key1 : ∀ (dl : ℚ) (l : List Circle), ∀ c ∈ stepCircles1 now dl l,
      circleAge now c < c.lifeMs := by
    intro dl l c hc
    unfold stepCircles1 at hc
    rw [List.mem_filter] at hc
    have h2 := hc.2
    simpa [expired] using h2
  have key2 : ∀ (l : List Circle), ∀ c ∈ stepCircles2 now l,
      circleAge now c < c.lifeMs := by
    intro l c hc
    unfold stepCircles2 at hc
    rw [List.mem_filter] at hc
    have h2 := hc.2
    simpa [expired] using h2
  refine ⟨fun c hc => key1 delta cs c hc, ?_, key2 cs, ?_, ?_, ?_⟩
  · intro c hc hage
    unfold stepCircles1
    rw [List.mem_filter]
    refine ⟨List.mem_map_of_mem _ hc, ?_⟩
    simpa [expired] using hage
  · intro c hc hage
    unfold stepCircles2
    rw [List.mem_filter]
    refine ⟨hc, ?_⟩
    simpa [expired] using hage
  · intro w h u1 u2 d tsp s c hc
    exact key1 _ _ c hc
  · intro w h u1 u2 d tsp s c hc
    exact key2 _ c hc

/-- C1 witness: a concrete 900 ms old circle with a 6000 ms lifetime
survives a concrete frame step at timestamp 1000. -/
theorem frame_expires_exactly_witness :
    cNeg ∈ stepCircles2 1000 [cNeg] :=
  (frame_expires_exactly 1000 0 [cNeg]).2.2.2.1 cNeg (List.mem_singleton.mpr rfl)
    (by norm_num [circleAge, cNeg])

/-- C2: on a 200 ms frame gap (lastNow = 800, now = 1000) the first variant
computes the clamped delta 50, but adding it to createdAt makes the age of
a circle created at time 0 jump from 800 to 950: the age advances by
150 ms, not by the clamped 50 ms; and on a normal 16 ms frame the age does
not advance at all. -/
theorem clamped_delta_age_jump :
    clampDelta 1000 800 = 50 ∧
    circleAge 800 cGap = 800 ∧
    circleAge 1000 (advanceCircle (clampDelta 1000 800) cGap) = 950 ∧
    stepCircles1 1000 (clampDelta 1000 800) [cGap]
      = [advanceCircle 50 cGap] ∧
    ¬ (circleAge 1000 (advanceCircle (clampDelta 1000 800) cGap)
         - circleAge 800 cGap ≤ 50) ∧
    circleAge 816 (advanceCircle (clampDelta 816 800) cGap)
      - circleAge 800 cGap = 0 := by
  have e50 : clampDelta 1000 800 = 50 := by
    norm_num [clampDelta, min_def, max_def]
  have e16 : clampDelta 816 800 = 16 := by
    norm_num [clampDelta, min_def, max_def]
  refine ⟨e50, by norm_num [circleAge, cGap], ?_, ?_, ?_, ?_⟩
  · rw [e50]
    norm_num [circleAge, advanceCircle, cGap]
  · rw [e50]
    simp [stepCircles1, expired, circleAge, advanceCircle, cGap]
    norm_num
  · rw [e50]
    norm_num [circleAge, advanceCircle, cGap]
  · rw [e16]
    norm_num [circleAge, advanceCircle, cGap]

/-- C3: the alpha computed by the source before the dimming multiplier
matches the spec's piecewise fade profile (t/fadeIn ramp, hold at 1,
(1-t)/fadeOut ramp) whenever lifetime and fade fractions are nonzero; the
sanitizing clamp of the first variant leaves it unchanged for t ∈ [0,1);
and at lifetime 10000 with fades 0.25 the alpha is 0.4 at age 1000, 1 at
age 5000, and 0.2 at age 9500. -/
theorem alpha_fade_profile (age lifeMs fadeIn fadeOut : ℚ)
    (hl : lifeMs ≠ 0) (hfi : fadeIn ≠ 0) (hfo : fadeOut ≠ 0) :
    alphaRaw age lifeMs fadeIn fadeOut
      = JSNum.num (alphaSpec (age / lifeMs) fadeIn fadeOut) ∧
    (0 ≤ age / lifeMs → age / lifeMs < 1 →
      sanitizeAlpha (alphaRaw age lifeMs (1/4) (1/4))
        = alphaSpec (age / lifeMs) (1/4) (1/4)) ∧
    alphaRaw 1000 10000 (1/4) (1/4) = JSNum.num (2/5) ∧
    alphaRaw 5000 10000 (1/4) (1/4) = JSNum.num 1 ∧
    alphaRaw 9500 10000 (1/4) (1/4) = JSNum.num (1/5) := by
  refine ⟨alphaRaw_eq_alphaSpec age lifeMs fadeIn fadeOut hl hfi hfo,
    ?_, by norm_num [alphaRaw, qdiv, jltq, jgtq, jdivq, jsubq],
    by norm_num [alphaRaw, qdiv, jltq, jgtq, jdivq, jsubq],
    by norm_num [alphaRaw, qdiv, jltq, jgtq, jdivq, jsubq]⟩
  intro ht0 ht1
  rw [alphaRaw_eq_alphaSpec age lifeMs (1/4) (1/4) hl (by norm_num) (by norm_num)]
  have hmem := alphaSpec_mem_unit (age / lifeMs) ht0 ht1
  exact sanitizeAlpha_num _ hmem.1 hmem.2

/-- C3 witness: the fade profile theorem applied at age 1000 of a 10000 ms
lifetime with fade fractions 0.25. -/
theorem alpha_fade_profile_witness :
    alphaRaw 1000 10000 (1/4) (1/4)
      = JSNum.num (alphaSpec (1000 / 10000) (1/4) (1/4)) :=
  (alpha_fade_profile 1000 10000 (1/4) (1/4)
    (by norm_num) (by norm_num) (by norm_num)).1

/-- C4 counterexample: the second variant applies no numeric-safety step.
For its concrete circle cNeg, spawned 100 ms later than the frame timestamp
0 of the frame that renders it (performance.now() at spawn time runs ahead
of the requestAnimationFrame timestamp), the age is -100 ms, the circle is
not expired, and the alpha reaching the dimming multiplier is the negative
number -1/15, outside [0,1] and never replaced or clamped. -/
theorem alpha_unsanitized_negative :
    expired 0 cNeg = false ∧
    alphaBeforeDim2 0 cNeg = JSNum.num (-(1/15)) ∧
    ¬ (0 ≤ -(1/15 : ℚ)) := by
  refine ⟨?_, ?_, by norm_num⟩
  · simp only [expired, circleAge, cNeg]
    norm_num
  · norm_num [alphaBeforeDim2, alphaRaw, circleAge, cNeg,
      qdiv, jltq, jgtq, jdivq, jsubq]

/-- C4 (amended): the sanitizing step exists only in the first variant
(bg.js lines 126-128); there it maps every extended-number alpha into
[0,1], so the first variant's alpha before dimming is always in [0,1] for
every circle and timestamp, and a zero-duration lifetime (alpha computed as
an infinity) is sent to 0. -/
theorem alpha_sanitized_unit :
    (∀ x : JSNum, 0 ≤ sanitizeAlpha x ∧ sanitizeAlpha x ≤ 1) ∧
    (∀ (now : ℚ) (c : Circle),
      0 ≤ alphaBeforeDim1 now c ∧ alphaBeforeDim1 now c ≤ 1) ∧
    sanitizeAlpha (alphaRaw 5 0 (1/4) (1/4)) = 0 := by
  have base : ∀ x : JSNum, 0 ≤ sanitizeAlpha x ∧ sanitizeAlpha x ≤ 1 := by
    intro x
    exact ⟨le_max_left 0 _, max_le (by norm_num) (min_le_right _ 1)⟩
  have hdeg : alphaRaw 5 0 (1/4) (1/4) = JSNum.ninf := by
    norm_num [alphaRaw, qdiv, jltq, jgtq, jdivq, jsubq]
  refine ⟨base, fun now c => base _, ?_⟩
  rw [hdeg]
  show max 0 (min 0 1) = 0
  norm_num

/-- C5 counterexample: on a 100×100 viewport minRadius = 20 exceeds
maxRadius = 8, and the draw u = 1/2 yields radius 14, outside
[minRadius, maxRadius]. -/
theorem spawn_radius_outside_bounds :
    (spawnCircle 100 100 ⟨1/2, 0, 0, 0, 0, 0, 0⟩ 0).radius = 14 ∧
    ¬ (minRadiusOf 100 100 ≤ (spawnCircle 100 100 ⟨1/2, 0, 0, 0, 0, 0, 0⟩ 0).radius ∧
       (spawnCircle 100 100 ⟨1/2, 0, 0, 0, 0, 0, 0⟩ 0).radius ≤ maxRadiusOf 100 100) := by
  have e14 : (spawnCircle 100 100 ⟨1/2, 0, 0, 0, 0, 0, 0⟩ 0).radius = 14 := by
    show random (1/2) (minRadiusOf 100 100) (maxRadiusOf 100 100) = 14
    norm_num [random, minRadiusOf, maxRadiusOf, min_def, max_def]
  refine ⟨e14, ?_⟩
  rw [e14]
  norm_num [minRadiusOf, max_def, min_def]

/-- C5 (amended): both variants draw the same radius; it lies in
[minRadius, maxRadius] whenever minRadius ≤ maxRadius (which needs
max(W,H) ≥ 250), always lies between the smaller and larger of the two
bounds, and on a 1000×800 viewport lies in [20, 80]. -/
theorem spawn_radius_bounds (w h t : ℚ) (d : SpawnDraws)
    (h0 : 0 ≤ d.dRadius) (h1 : d.dRadius < 1) :
    (spawnCircle2 w h d t).radius = (spawnCircle w h d t).radius ∧
    (minRadiusOf w h ≤ maxRadiusOf w h →
      minRadiusOf w h ≤ (spawnCircle w h d t).radius ∧
      (spawnCircle w h d t).radius ≤ maxRadiusOf w h) ∧
    (min (minRadiusOf w h) (maxRadiusOf w h) ≤ (spawnCircle w h d t).radius ∧
      (spawnCircle w h d t).radius ≤ max (minRadiusOf w h) (maxRadiusOf w h)) ∧
    (w = 1000 → h = 800 →
      20 ≤ (spawnCircle w h d t).radius ∧ (spawnCircle w h d t).radius ≤ 80) := by
  have hrad : (spawnCircle w h d t).radius
      = random d.dRadius (minRadiusOf w h) (maxRadiusOf w h) := rfl
  refine ⟨rfl, ?_, ?_, ?_⟩
  · intro hle
    rw [hrad]
    exact random_mem_Icc _ _ _ hle h0 h1
  · rw [hrad]
    exact random_mem_minmax _ _ _ h0 h1
  · intro hw hh
    subst hw
    subst hh
    have e1 : minRadiusOf 1000 800 = 20 := by
      norm_num [minRadiusOf, max_def, min_def]
    have e2 : maxRadiusOf 1000 800 = 80 := by
      norm_num [maxRadiusOf, max_def]
    have hmm := random_mem_Icc d.dRadius (minRadiusOf 1000 800)
      (maxRadiusOf 1000 800) (by rw [e1, e2]; norm_num) h0 h1
    rw [hrad, ← e1, ← e2]
    exact hmm

/-- C5 witness: the radius bounds applied on the 1000×800 viewport with
draw 1/2. -/
theorem spawn_radius_bounds_witness :
    20 ≤ (spawnCircle 1000 800 ⟨1/2, 0, 0, 0, 0, 0, 0⟩ 0).radius ∧
    (spawnCircle 1000 800 ⟨1/2, 0, 0, 0, 0, 0, 0⟩ 0).radius ≤ 80 :=
  (spawn_radius_bounds 1000 800 0 ⟨1/2, 0, 0, 0, 0, 0, 0⟩
    (by norm_num) (by norm_num)).2.2.2 rfl rfl

/-- C6: in both variants a spawned circle's position lies in
[-radius, W+radius] × [-radius, H+radius] for its own radius, for any
nonnegative viewport and any Math.random draws in [0,1). -/
theorem spawn_position_bounds (w h t : ℚ) (d : SpawnDraws)
    (hw : 0 ≤ w) (hh : 0 ≤ h)
    (hr0 : 0 ≤ d.dRadius) (hr1 : d.dRadius < 1)
    (hx0 : 0 ≤ d.dX) (hx1 : d.dX < 1)
    (hy0 : 0 ≤ d.dY) (hy1 : d.dY < 1) :
    (-(spawnCircle w h d t).radius ≤ (spawnCircle w h d t).x ∧
     (spawnCircle w h d t).x ≤ w + (spawnCircle w h d t).radius ∧
     -(spawnCircle w h d t).radius ≤ (spawnCircle w h d t).y ∧
     (spawnCircle w h d t).y ≤ h + (spawnCircle w h d t).radius) ∧
    (-(spawnCircle2 w h d t).radius ≤ (spawnCircle2 w h d t).x ∧
     (spawnCircle2 w h d t).x ≤ w + (spawnCircle2 w h d t).radius ∧
     -(spawnCircle2 w h d t).radius ≤ (spawnCircle2 w h d t).y ∧
     (spawnCircle2 w h d t).y ≤ h + (spawnCircle2 w h d t).radius) := by
  have hrad : (spawnCircle w h d t).radius
      = random d.dRadius (minRadiusOf w h) (maxRadiusOf w h) := rfl
  have hrpos : 0 < (spawnCircle w h d t).radius := by
    rw [hrad]
    exact radiusDraw_pos w h d.dRadius hw hh hr0 hr1
  have hxspan : -(spawnCircle w h d t).radius
      ≤ w + (spawnCircle w h d t).radius := by linarith
  have hyspan : -(spawnCircle w h d t).radius
      ≤ h + (spawnCircle w h d t).radius := by linarith
  have hx : (spawnCircle w h d t).x
      = random d.dX (-(spawnCircle w h d t).radius)
          (w + (spawnCircle w h d t).radius) := rfl
  have hy : (spawnCircle w h d t).y
      = random d.dY (-(spawnCircle w h d t).radius)
          (h + (spawnCircle w h d t).radius) := rfl
  have hxb := random_mem_Icc d.dX _ _ hxspan hx0 hx1
  have hyb := random_mem_Icc d.dY _ _ hyspan hy0 hy1
  have main : -(spawnCircle w h d t).radius ≤ (spawnCircle w h d t).x ∧
      (spawnCircle w h d t).x ≤ w + (spawnCircle w h d t).radius ∧
      -(spawnCircle w h d t).radius ≤ (spawnCircle w h d t).y ∧
      (spawnCircle w h d t).y ≤ h + (spawnCircle w h d t).radius := by
    rw [hx, hy]
    exact ⟨hxb.1, hxb.2, hyb.1, hyb.2⟩
  exact ⟨main, main⟩

/-- C6 witness: the position bounds applied on the 1000×800 viewport with
all draws 1/2. -/
theorem spawn_position_bounds_witness :
    -(spawnCircle 1000 800 ⟨1/2, 1/2, 1/2, 0, 0, 0, 0⟩ 0).radius
      ≤ (spawnCircle 1000 800 ⟨1/2, 1/2, 1/2, 0, 0, 0, 0⟩ 0).x :=
  ((spawn_position_bounds 1000 800 0 ⟨1/2, 1/2, 1/2, 0, 0, 0, 0⟩
    (by norm_num) (by norm_num) (by norm_num) (by norm_num)
    (by norm_num) (by norm_num) (by norm_num) (by norm_num)).1).1

/-- C7: a spawn event fires exactly when more than 400 ms of animation time
passed since the last one; a non-triggering frame changes nothing, a
triggering frame appends exactly spawnCount circles and resets lastSpawn;
and the count is 1 when the burst draw is ≥ 0.2 and 2 or 3 when it is
< 0.2, with no other count possible. -/
theorem spawn_cadence_and_count (now ls u1 u2 : ℚ) (mk : ℕ → Circle)
    (cs : List Circle) (hu0 : 0 ≤ u2) (hu1 : u2 < 1) :
    (spawnTriggered now ls = true ↔ 400 < now - ls) ∧
    (¬ 400 < now - ls → spawnPhase now ls u1 u2 mk cs = (ls, cs)) ∧
    (400 < now - ls →
      (spawnPhase now ls u1 u2 mk cs).1 = now ∧
      ((spawnPhase now ls u1 u2 mk cs).2).length
        = cs.length + spawnCount u1 u2) ∧
    (¬ u1 < 1/5 → spawnCount u1 u2 = 1) ∧
    (u1 < 1/5 → spawnCount u1 u2 = 2 ∨ spawnCount u1 u2 = 3) := by
  refine ⟨by simp [spawnTriggered], ?_, ?_, ?_, ?_⟩
  · intro hnot
    simp [spawnPhase, spawnTriggered, hnot]
  · intro htrig
    constructor
    · simp [spawnPhase, spawnTriggered, htrig]
    · simp [spawnPhase, spawnTriggered, htrig]
  · intro hge
    unfold spawnCount
    rw [if_neg hge]
  · intro hlt
    have h2 : (2:ℚ) ≤ random u2 2 4 := by
      unfold random
      nlinarith
    have h4 : random u2 2 4 < 4 := by
      unfold random
      nlinarith
    have hf2 : (2:ℤ) ≤ ⌊random u2 2 4⌋ := by
      rw [Int.le_floor]
      exact_mod_cast h2
    have hf4 : ⌊random u2 2 4⌋ < (4:ℤ) := by
      rw [Int.floor_lt]
      exact_mod_cast h4
    unfold spawnCount
    rw [if_pos hlt]
    omega

/-- C7 witness: a concrete triggering frame (now 500, lastSpawn 0) with
burst draws u1 = 1/10 < 0.2 and u2 = 3/4 spawns 3 circles. -/
theorem spawn_cadence_and_count_witness :
    spawnCount (1/10) (3/4) = 2 ∨ spawnCount (1/10) (3/4) = 3 :=
  (spawn_cadence_and_count 500 0 (1/10) (3/4) (fun _ => cGap) []
    (by norm_num) (by norm_num)).2.2.2.2 (by norm_num)

/-- C8: resizeCanvas computes scale = min(2, dpr or 1 when dpr is falsy),
sets the backing resolution to floor(W·scale) × floor(H·scale) physical
pixels, the displayed size to W × H layout pixels, and the context
transform to the uniform scaling (scale, 0, 0, scale, 0, 0). -/
theorem resize_contract (W H dpr : ℚ) (s : SurfaceState) :
    (resizeCanvas W H dpr s).dprScale = min 2 (if dpr = 0 then 1 else dpr) ∧
    (resizeCanvas W H dpr s).canvasWidth
      = ⌊W * min 2 (if dpr = 0 then 1 else dpr)⌋ ∧
    (resizeCanvas W H dpr s).canvasHeight
      = ⌊H * min 2 (if dpr = 0 then 1 else dpr)⌋ ∧
    (resizeCanvas W H dpr s).styleWidth = W ∧
    (resizeCanvas W H dpr s).styleHeight = H ∧
    (resizeCanvas W H dpr s).transform
      = (min 2 (if dpr = 0 then 1 else dpr), 0, 0,
         min 2 (if dpr = 0 then 1 else dpr), 0, 0) :=
  ⟨rfl, rfl, rfl, rfl, rfl, rfl⟩

/-- C9: resizeCanvas is idempotent: with unchanged viewport dimensions and
device pixel ratio, a second call yields the identical surface state. -/
theorem resize_idempotent (W H dpr : ℚ) (s : SurfaceState) :
    resizeCanvas W H dpr (resizeCanvas W H dpr s) = resizeCanvas W H dpr s :=
  rfl

/-- C10: a resize event touches only the surface: the circle list, the
lastSpawn timestamp and the lastNow timestamp of the module state are
unchanged, so no particle is added, removed, or mutated. -/
theorem resize_keeps_particles (W H dpr : ℚ) (s : ModuleState) :
    (resizeEvent W H dpr s).circles = s.circles ∧
    (resizeEvent W H dpr s).lastSpawn = s.lastSpawn ∧
    (resizeEvent W H dpr s).lastNow = s.lastNow :=
  ⟨rfl, rfl, rfl⟩

end Bg
